import Mathlib

/-!
Shallow embedding of the remote-orchestration core of `vmmigrate/fio-tests.py`
(class `CommandExecutor` and the fleet-level functions `prepare_storage`,
`migrate_vms_during_test` and the completion-poll loop of `run_fio_tests`).

Remote effects are abstracted as oracles: a stream of per-attempt outcomes for
`subprocess.run` inside `execute_command`, a probe oracle for the `oc get`
calls inside `is_vm_host`, per-host liveness/file predicates and durations for
the poll loop, and per-pass migration outcomes for `virtctl migrate`.
Wall-clock time is modelled by explicit duration inputs; sleeps are counted.
-/

namespace FioTests

/-- Outcome of one `subprocess.run` attempt inside `execute_command`:
a zero-exit run with its stdout, a non-zero exit with its stderr,
a `subprocess.TimeoutExpired`, or any other exception with its text. -/
inductive AttemptOutcome where
  | ok (out : String)
  | nonzero (err : String)
  | timeout
  | exc (msg : String)
deriving DecidableEq

/-- Observable result of `execute_command`: the returned `(success, text)`
pair plus instrumentation: how many attempts were issued and how many
`time.sleep(retry_interval)` calls happened. -/
structure ExecResult where
  success : Bool
  output : String
  attempts : Nat
  sleeps : Nat
deriving DecidableEq

/-- The `for attempt in range(1, max_retries + 1)` loop of
`CommandExecutor.execute_command` (fio-tests.py lines 182-222).
A zero exit returns success at once; `subprocess.TimeoutExpired` returns
failure `"Command timeout"` at once; a non-zero exit or other exception
sleeps and retries while `attempt < max_retries`, else returns failure.
The fuel argument equals the number of remaining loop iterations; when it
runs out the trailing `return False, "Max retries exceeded"` is reached. -/
def exec_loop (outcomes : Nat → AttemptOutcome) (mr attempt slept : Nat) :
    Nat → ExecResult
  | 0 => ⟨false, "Max retries exceeded", attempt - 1, slept⟩
  | fuel + 1 =>
    match outcomes attempt with
    | .ok out => ⟨true, out, attempt, slept⟩
    | .timeout => ⟨false, "Command timeout", attempt, slept⟩
    | .nonzero err =>
      if attempt < mr then exec_loop outcomes mr (attempt + 1) (slept + 1) fuel
      else ⟨false, err, attempt, slept⟩
    | .exc msg =>
      if attempt < mr then exec_loop outcomes mr (attempt + 1) (slept + 1) fuel
      else ⟨false, msg, attempt, slept⟩

/-- `CommandExecutor.execute_command` (fio-tests.py lines 161-222).
The host, command text, description and timeout value only shape the remote
call and the log text; they are folded into the outcome stream. Dry-run mode
returns `(True, "")` before any remote invocation. -/
def execute_command (dry_run : Bool) (mr : Nat)
    (outcomes : Nat → AttemptOutcome) : ExecResult :=
  match dry_run with
  | true => ⟨true, "", 0, 0⟩
  | false => exec_loop outcomes mr 1 0 mr

/-- An outcome that the loop retries (non-zero exit or non-timeout exception). -/
def retryable : AttemptOutcome → Bool
  | .nonzero _ => true
  | .exc _ => true
  | _ => false

/-- Value of a list of decimal digit characters. -/
def digitsToNat (ds : List Char) : Nat :=
  ds.foldl (fun n c => n * 10 + (c.toNat - 48)) 0

/-- All-digit check used by the `int(...)` model. -/
def digits_val (cs : List Char) : Option Nat :=
  if cs = [] then none
  else if cs.all Char.isDigit then some (digitsToNat cs) else none

/-- Python `int(s)` on an already-stripped string: optional sign followed by
a non-empty run of decimal digits; anything else raises `ValueError`
(modelled as `none`). -/
def py_int_of_string (s : String) : Option Int :=
  match s.toList with
  | '-' :: rest => (digits_val rest).map fun n => -(n : Int)
  | '+' :: rest => (digits_val rest).map fun n => (n : Int)
  | cs => (digits_val cs).map fun n => (n : Int)

/-- `CommandExecutor.check_task_running` (fio-tests.py lines 296-308): one
probe attempt (`max_retries=1`, `timeout=30`), then `int(output.strip()) > 0`;
any probe failure or unparseable output yields `False` (fail-safe). -/
def check_task_running (probe : AttemptOutcome) : Bool :=
  let r := execute_command false 1 fun _ => probe
  if r.success then
    match py_int_of_string r.output.trim with
    | some n => decide (0 < n)
    | none => false
  else false

/-- A probe that fails: remote timeout, non-zero exit, connection/other
exception, or a zero-exit run whose output does not parse as an integer. -/
def probe_failure : AttemptOutcome → Prop
  | .ok out => py_int_of_string out.trim = none
  | _ => True

/-- Outcome stream of spec Scenario C: the first two attempts time out and
the third succeeds. -/
def c1outs : Nat → AttemptOutcome :=
  fun k => if k ≤ 2 then .timeout else .ok "done"

/-- Claim C1 (counterexample): with `max_retries = 3` and a stream whose
first two attempts time out and whose third would succeed, `execute_command`
does not return success after 3 attempts: the first timeout makes it return
failure immediately with 1 attempt, because `subprocess.TimeoutExpired`
returns `(False, "Command timeout")` without consulting `attempt < max_retries`. -/
theorem c1_counterexample :
    ¬ ((execute_command false 3 c1outs).success = true ∧
       (execute_command false 3 c1outs).attempts = 3) := by
  decide

/-- Claim C1 (amended): when `execute_command` reaches attempt `k` (all
earlier attempts were retryable failures) and attempt `k` times out, it
returns failure `"Command timeout"` immediately at attempt `k`, with only
the `k - 1` sleeps of the earlier retries — a timeout is never retried,
unlike a non-zero exit. -/
theorem c1_timeout_immediate (outcomes : Nat → AttemptOutcome) (mr k : Nat)
    (hk1 : 1 ≤ k) (hkm : k ≤ mr)
    (hr : ∀ j, 1 ≤ j → j < k → retryable (outcomes j) = true)
    (ht : outcomes k = .timeout) :
    execute_command false mr outcomes = ⟨false, "Command timeout", k, k - 1⟩ := by
  have main : ∀ fuel attempt slept, fuel = mr + 1 - attempt →
      attempt ≤ k → 1 ≤ attempt →
      (∀ j, attempt ≤ j → j < k → retryable (outcomes j) = true) →
      exec_loop outcomes mr attempt slept fuel =
        ⟨false, "Command timeout", k, slept + (k - attempt)⟩ := by
    intro fuel
    induction fuel with
    | zero =>
      intro attempt slept hfuel hak _ _
      omega
    | succ f ih =>
      intro attempt slept hfuel hak ha1 hretry
      rcases eq_or_lt_of_le hak with heq | hlt
      · subst heq
        simp only [exec_loop, ht]
        congr 1
        omega
      · have hrt : retryable (outcomes attempt) = true :=
          hretry attempt le_rfl hlt
        have ham : attempt < mr := lt_of_lt_of_le hlt hkm
        cases hout : outcomes attempt with
        | ok out => rw [hout] at hrt; simp [retryable] at hrt
        | timeout => rw [hout] at hrt; simp [retryable] at hrt
        | nonzero err =>
          simp only [exec_loop, hout, if_pos ham]
          rw [ih (attempt + 1) (slept + 1) (by omega) hlt (by omega)
            (fun j hj hjk => hretry j (by omega) hjk)]
          congr 1
          omega
        | exc msg =>
          simp only [exec_loop, hout, if_pos ham]
          rw [ih (attempt + 1) (slept + 1) (by omega) hlt (by omega)
            (fun j hj hjk => hretry j (by omega) hjk)]
          congr 1
          omega
  show exec_loop outcomes mr 1 0 mr = _
  rw [main mr 1 0 (by omega) hk1 le_rfl (fun j hj hjk => hr j hj hjk)]
  congr 1
  omega

/-- Witness for the amended C1: a timeout on the very first attempt of a
`max_retries = 3` call returns failure after exactly one attempt, no sleeps. -/
theorem c1_timeout_immediate_witness :
    execute_command false 3 c1outs = ⟨false, "Command timeout", 1, 0⟩ :=
  c1_timeout_immediate c1outs 3 1 (by decide) (by decide)
    (fun j hj hjk => absurd (lt_of_le_of_lt hj hjk) (lt_irrefl 1))
    (by decide)

/-- Claim C9: in dry-run mode `execute_command` returns success with empty
output immediately: zero remote attempts and zero retry sleeps, for every
retry budget and every possible stream of remote outcomes. -/
theorem c9_dry_run (mr : Nat) (outcomes : Nat → AttemptOutcome) :
    execute_command true mr outcomes = ⟨true, "", 0, 0⟩ :=
  rfl

/-- Claim C7: any probe failure (timeout, connection error or other
exception, non-zero exit, or unparseable output) makes `check_task_running`
return `false`, and the underlying probe issues at most one attempt
(`max_retries = 1`), so it can neither raise nor retry indefinitely. -/
theorem c7_probe_failsafe (probe : AttemptOutcome) (h : probe_failure probe) :
    check_task_running probe = false ∧
      (execute_command false 1 fun _ => probe).attempts ≤ 1 := by
  cases probe with
  | ok out =>
    simp only [probe_failure] at h
    simp [check_task_running, execute_command, exec_loop, h]
  | nonzero err =>
    simp [check_task_running, execute_command, exec_loop]
  | timeout =>
    simp [check_task_running, execute_command, exec_loop]
  | exc msg =>
    simp [check_task_running, execute_command, exec_loop]

/-- Witness for C7: a timed-out probe yields `false` after one attempt. -/
theorem c7_probe_failsafe_witness :
    check_task_running AttemptOutcome.timeout = false ∧
      (execute_command false 1 fun _ => AttemptOutcome.timeout).attempts ≤ 1 :=
  c7_probe_failsafe AttemptOutcome.timeout trivial

/-- Outcome of one `oc get` probe inside `is_vm_host`: resource found
(zero exit), not found (non-zero exit), or an exception
(`TimeoutExpired` / `FileNotFoundError`). -/
inductive ProbeResult where
  | found
  | notFound
  | err
deriving DecidableEq

/-- The guard `not config.namespace or config.namespace == "N/A"`:
namespace never set, empty, or the SSH-only sentinel. -/
def nsBad : Option String → Bool
  | none => true
  | some s => s == "" || s == "N/A"

/-- `CommandExecutor.is_vm_host` (fio-tests.py lines 88-116) for one host.
`uv` is `config.use_virtctl` (`some false` forces SSH, `some true` forces
virtctl, `none` auto-detects). The control plane is an oracle indexed by a
global probe counter `k`: each `oc get vm` / `oc get vmi` subprocess call
consumes one index. The pair returned is (classification, new counter); a
`found` first probe answers Proxied without the second probe, and an
exception on either probe is caught and answers Direct. -/
def is_vm_host (uv : Option Bool) (ns : Option String)
    (oracle : Nat → ProbeResult) (k : Nat) : Bool × Nat :=
  match uv with
  | some false => (false, k)
  | some true => (true, k)
  | none =>
    if nsBad ns then (false, k)
    else
      match oracle k with
      | .found => (true, k + 1)
      | .err => (false, k + 1)
      | .notFound =>
        match oracle (k + 1) with
        | .found => (true, k + 2)
        | .notFound => (false, k + 2)
        | .err => (false, k + 2)

/-- A control plane whose first probed call pair says not-found and which
says found afterwards (e.g. the VM appears between two classifications). -/
def c5oracle : Nat → ProbeResult :=
  fun k => if k < 2 then .notFound else .found

/-- Claim C5 (counterexample): `is_vm_host` does not cache. In auto-detect
mode with a set namespace, a first call classifies the host Direct after two
probes, and a second call for the same host re-probes the control plane and
returns the opposite classification — so the result is neither computed at
most once nor stable across calls. -/
theorem c5_counterexample :
    (is_vm_host none (some "testns") c5oracle 0).1 = false ∧
      (is_vm_host none (some "testns") c5oracle
        (is_vm_host none (some "testns") c5oracle 0).2).1 = true ∧
      ¬ ((is_vm_host none (some "testns") c5oracle
        (is_vm_host none (some "testns") c5oracle 0).2).2 =
          (is_vm_host none (some "testns") c5oracle 0).2) := by
  decide

/-- Claim C5 (amended): `is_vm_host` recomputes the classification on every
call: each auto-detect call with a usable namespace performs at least one
fresh control-plane probe (the counter strictly advances), and repeated calls
agree only as far as the probe outcomes are stable — for a constant oracle
every call returns the same classification. -/
theorem c5_no_cache (ns : Option String) (oracle : Nat → ProbeResult)
    (k : Nat) (hns : nsBad ns = false) :
    k < (is_vm_host none ns oracle k).2 ∧
      (∀ r k', (∀ j, oracle j = r) →
        (is_vm_host none ns oracle k).1 = (is_vm_host none ns oracle k').1) := by
  constructor
  · simp only [is_vm_host, hns, if_false, Bool.false_eq_true]
    cases oracle k with
    | found => simp
    | err => simp
    | notFound => cases oracle (k + 1) <;> simp
  · intro r k' hconst
    simp only [is_vm_host, hns, if_false, Bool.false_eq_true, hconst]
    cases r <;> simp

/-- Witness for the amended C5: with a constant `found` oracle, a call from
counter 0 advances the counter and agrees with a call from counter 5. -/
theorem c5_no_cache_witness :
    0 < (is_vm_host none (some "testns") (fun _ => ProbeResult.found) 0).2 ∧
      (is_vm_host none (some "testns") (fun _ => ProbeResult.found) 0).1 =
        (is_vm_host none (some "testns") (fun _ => ProbeResult.found) 5).1 :=
  ⟨(c5_no_cache (some "testns") (fun _ => ProbeResult.found) 0 (by decide)).1,
   (c5_no_cache (some "testns") (fun _ => ProbeResult.found) 0 (by decide)).2
     ProbeResult.found 5 (fun _ => rfl)⟩

/-- Job states of the spec data model for a background launch. -/
inductive JobState where
  | starting
  | confirmedRunning (pid : Option Nat)
  | unconfirmed
  | completed
  | failed
deriving DecidableEq

/-- Log severity of the messages emitted while confirming a launch. -/
inductive LogLevel where
  | info
  | warning
  | error
deriving DecidableEq

/-- Observable result of the launch-confirmation logic: the job state the
launcher ends in, the grace wait (seconds slept before the re-check, 0 when
a PID was parsed straight away) and the log lines it emits. -/
structure LaunchResult where
  state : JobState
  graceWait : Nat
  logs : List (LogLevel × String)

/-- `re.search(r"\d+", output)`: the first maximal run of decimal digits. -/
def firstDigitRun : List Char → Option (List Char)
  | [] => none
  | c :: rest =>
    if c.isDigit then some (c :: rest.takeWhile fun d => d.isDigit)
    else firstDigitRun rest

/-- The confirmation tail of `run_command` inside
`CommandExecutor.execute_background` (fio-tests.py lines 262-288), after the
nohup launch command returned `(confirmOk, confirmOut)` and where `running`
is the answer of the later `check_task_running(host, "fio.*testfile")` scan.
If a nonzero PID parses from the output the job is confirmed at once with
that PID. Otherwise the launcher sleeps 3 seconds and re-checks liveness:
running yields ConfirmedRunning with no PID; not running yields only a
warning ("will be checked later") when the confirmation call had succeeded,
but an error — the job is Failed — when the confirmation call itself had
failed or timed out. -/
def execute_background (confirmOk : Bool) (confirmOut : String)
    (running : Bool) (host : String) : LaunchResult :=
  match confirmOk with
  | true =>
    match firstDigitRun confirmOut.toList with
    | some ds =>
      if ds ≠ ['0'] then
        { state := .confirmedRunning (some (digitsToNat ds)), graceWait := 0,
          logs := [(.info, "Background FIO process started on " ++ host ++
            " with PID: " ++ String.mk ds)] }
      else
        if running then
          { state := .confirmedRunning none, graceWait := 3,
            logs := [(.warning, "PID not found in output for " ++ host ++
                ", verifying FIO process is running..."),
              (.info, "Background FIO process confirmed running on " ++ host)] }
        else
          { state := .unconfirmed, graceWait := 3,
            logs := [(.warning, "PID not found in output for " ++ host ++
                ", verifying FIO process is running..."),
              (.warning, "FIO process may not have started on " ++ host ++
                " - will be checked later")] }
    | none =>
      if running then
        { state := .confirmedRunning none, graceWait := 3,
          logs := [(.warning, "PID not found in output for " ++ host ++
              ", verifying FIO process is running..."),
            (.info, "Background FIO process confirmed running on " ++ host)] }
      else
        { state := .unconfirmed, graceWait := 3,
          logs := [(.warning, "PID not found in output for " ++ host ++
              ", verifying FIO process is running..."),
            (.warning, "FIO process may not have started on " ++ host ++
              " - will be checked later")] }
  | false =>
    if running then
      { state := .confirmedRunning none, graceWait := 3,
        logs := [(.warning, "SSH verification timed out on " ++ host ++
            ", checking if process started..."),
          (.info, "Process confirmed running on " ++ host ++
            " despite SSH timeout - nohup started successfully")] }
    else
      { state := .failed, graceWait := 3,
        logs := [(.warning, "SSH verification timed out on " ++ host ++
            ", checking if process started..."),
          (.error, "Failed to start background FIO process on " ++ host ++
            " - verification confirms process is not running")] }

/-- Confirmation output from which no usable PID parses: no digit run at
all, or a first digit run equal to "0" (the `echo '0'` fallback). -/
def pid_unusable (out : String) : Prop :=
  firstDigitRun out.toList = none ∨ firstDigitRun out.toList = some ['0']

/-- Claim C6 (counterexample): the confirmation call succeeds but its output
is the fallback "0" (no PID parses), the liveness re-check after the 3 s
grace wait says the process is not running — and the job does not become
Failed: the launcher only warns that it will be checked later. -/
theorem c6_counterexample :
    (execute_background true "0" false "h1").state = JobState.unconfirmed ∧
      ¬ ((execute_background true "0" false "h1").state = JobState.failed) := by
  decide

/-- Claim C6 (amended): when no usable PID parses from the confirmation
output, the launcher waits the 3 s grace interval and re-checks liveness; if
the process is running the state is ConfirmedRunning with PID unset and no
error is logged (whether the confirmation call succeeded or failed); if the
process is not running, the state is Failed only when the confirmation call
itself failed — after a successful confirmation call the launcher just logs
a warning that the job will be checked later (no failure). -/
theorem c6_confirm (out host : String) (h : pid_unusable out) :
    (execute_background true out true host).state =
        JobState.confirmedRunning none ∧
      (execute_background true out true host).graceWait = 3 ∧
      (∀ l ∈ (execute_background true out true host).logs,
        l.1 ≠ LogLevel.error) ∧
      (execute_background true out false host).state = JobState.unconfirmed ∧
      (execute_background false out true host).state =
        JobState.confirmedRunning none ∧
      (∀ l ∈ (execute_background false out true host).logs,
        l.1 ≠ LogLevel.error) ∧
      (execute_background false out false host).state = JobState.failed ∧
      (execute_background false out false host).graceWait = 3 := by
  rcases h with h | h
  · have h' : firstDigitRun out.data = none := h
    simp [execute_background, h']
  · have h' : firstDigitRun out.data = some ['0'] := h
    simp [execute_background, h']

/-- Witness for the amended C6 at the concrete output "0". -/
theorem c6_confirm_witness :
    pid_unusable "0" ∧
      (execute_background true "0" true "h1").state =
        JobState.confirmedRunning none ∧
      (execute_background false "0" false "h1").state = JobState.failed :=
  ⟨Or.inr (by decide),
   (c6_confirm "0" "h1" (Or.inr (by decide))).1,
   (c6_confirm "0" "h1" (Or.inr (by decide))).2.2.2.2.2.2.1⟩

/-- Observable result of `prepare_storage`: how many hosts failed the
directory-creation step (logged, not fatal) and the exit code, `some 1`
when `sys.exit(1)` was reached. -/
structure StorageResult where
  step1_failed : Nat
  exitCode : Option Nat
deriving DecidableEq

/-- `prepare_storage` (fio-tests.py lines 822-895) over per-step, per-host
outcomes `ok step host` (retries already folded in: `true` means the
command eventually succeeded, `false` means its retries were exhausted).
Step 1 (mkdir) logs failures and continues; step 2 (device validation)
calls `sys.exit(1)` on any host failure; step 3 (unmount) ignores results;
step 4 (mkfs) and step 5 (mount) call `sys.exit(1)` on any host failure. -/
def prepare_storage (hosts : List String) (ok : Nat → String → Bool) :
    StorageResult :=
  let s1 := (hosts.filter fun h => ! ok 1 h).length
  if hosts.all fun h => ok 2 h then
    if hosts.all fun h => ok 4 h then
      if hosts.all fun h => ok 5 h then ⟨s1, none⟩
      else ⟨s1, some 1⟩
    else ⟨s1, some 1⟩
  else ⟨s1, some 1⟩

/-- Claim C8: the run survives `prepare_storage` (exit code absent) exactly
when every host passed the must-succeed steps — device validation (2),
formatting (4), mounting (5); the fate of the other steps (directory
creation, unmount) never influences the exit, and the only other outcome is
the fatal non-zero exit `some 1`. -/
theorem c8_must_succeed (hosts : List String) (ok : Nat → String → Bool) :
    ((prepare_storage hosts ok).exitCode = none ↔
      ∀ h ∈ hosts, ok 2 h = true ∧ ok 4 h = true ∧ ok 5 h = true) ∧
    (∀ ok' : Nat → String → Bool,
      (∀ h, ok' 2 h = ok 2 h) → (∀ h, ok' 4 h = ok 4 h) →
      (∀ h, ok' 5 h = ok 5 h) →
      (prepare_storage hosts ok').exitCode = (prepare_storage hosts ok).exitCode) ∧
    ((prepare_storage hosts ok).exitCode = none ∨
      (prepare_storage hosts ok).exitCode = some 1) := by
  refine ⟨?_, ?_, ?_⟩
  · simp only [prepare_storage]
    by_cases h2 : hosts.all fun h => ok 2 h
    · by_cases h4 : hosts.all fun h => ok 4 h
      · by_cases h5 : hosts.all fun h => ok 5 h
        · simp only [h2, h4, h5, if_true, true_iff]
          intro h hh
          exact ⟨List.all_eq_true.mp h2 h hh, List.all_eq_true.mp h4 h hh,
            List.all_eq_true.mp h5 h hh⟩
        · simp only [h2, h4, h5, if_true, if_false]
          constructor
          · intro hc; exact absurd hc (by simp)
          · intro hall
            exact absurd (List.all_eq_true.mpr fun h hh => (hall h hh).2.2) h5
      · simp only [h2, h4, if_true, if_false]
        constructor
        · intro hc; exact absurd hc (by simp)
        · intro hall
          exact absurd (List.all_eq_true.mpr fun h hh => (hall h hh).2.1) h4
    · simp only [h2, if_false]
      constructor
      · intro hc; exact absurd hc (by simp)
      · intro hall
        exact absurd (List.all_eq_true.mpr fun h hh => (hall h hh).1) h2
  · intro ok' h2 h4 h5
    simp only [prepare_storage]
    rw [show (fun h => ok' 2 h) = fun h => ok 2 h from funext h2,
      show (fun h => ok' 4 h) = fun h => ok 4 h from funext h4,
      show (fun h => ok' 5 h) = fun h => ok 5 h from funext h5]
    by_cases g2 : hosts.all fun h => ok 2 h <;>
      by_cases g4 : hosts.all fun h => ok 4 h <;>
      by_cases g5 : hosts.all fun h => ok 5 h <;>
      simp [g2, g4, g5]
  · simp only [prepare_storage]
    by_cases g2 : hosts.all fun h => ok 2 h <;>
      by_cases g4 : hosts.all fun h => ok 4 h <;>
      by_cases g5 : hosts.all fun h => ok 5 h <;>
      simp [g2, g4, g5]

/-- Witness for C8: one host passing every must-succeed step keeps the run
alive, and flipping its formatting outcome produces the fatal exit 1. -/
theorem c8_must_succeed_witness :
    (prepare_storage ["vm1"] fun _ _ => true).exitCode = none ∧
      (prepare_storage ["vm1"] fun s _ => ! (s == 4)).exitCode = some 1 :=
  ⟨(c8_must_succeed ["vm1"] fun _ _ => true).1.mpr
      (fun h _ => ⟨rfl, rfl, rfl⟩),
   by
    rcases (c8_must_succeed ["vm1"] fun s _ => ! (s == 4)).2.2 with h | h
    · exact absurd ((c8_must_succeed ["vm1"] fun s _ => ! (s == 4)).1.mp h)
        (by decide)
    · exact h⟩

/-- Migration mode of `migrate_vms_during_test`: sequential with an
interval (`migrate_interval > 0`) or parallel via a worker pool. -/
inductive MigMode where
  | sequential
  | parallel
deriving DecidableEq

/-- One `virtctl migrate` invocation issued for a VM: which VM, which pass
(1 = initial, 2 = retry) and under which mode it ran. -/
structure MigAttempt where
  vm : String
  pass : Nat
  mode : MigMode
deriving DecidableEq

/-- `migrate_vms_during_test` (fio-tests.py lines 960-1099).
`uv` is `config.use_virtctl`, `ns` the namespace, `is_vm` the per-host
classification (`is_vm_host`), and `outcome v p` tells whether the
`virtctl migrate` of VM `v` on pass `p` returned exit 0 (exceptions count
as failures). Early guards return overall success with no attempts. Both
the sequential (`interval > 0`) and the parallel branch of the source do
the same bookkeeping — first pass over all VMs, then exactly one retry
pass over the first-pass failures — differing only in the worker pool and
the inter-VM sleeps, which the attempt list tags with the mode. Returns
the overall success flag and the list of attempts issued. -/
def migrate_vms_during_test (workloads : List String) (interval : Nat)
    (uv : Option Bool) (ns : Option String) (pattern : String)
    (vm_hosts : List String) (is_vm : String → Bool)
    (outcome : String → Nat → Bool) : Bool × List MigAttempt :=
  if pattern ∈ workloads then
    if uv = some false then (true, [])
    else if nsBad ns then (true, [])
    else
      let vms := vm_hosts.filter is_vm
      if vms.isEmpty then (true, [])
      else
        let mode := if 0 < interval then MigMode.sequential else MigMode.parallel
        let firstAtts := vms.map fun v => MigAttempt.mk v 1 mode
        let failed := vms.filter fun v => ! outcome v 1
        if failed.isEmpty then (true, firstAtts)
        else
          let retryAtts := failed.map fun v => MigAttempt.mk v 2 mode
          let retry_failed := failed.filter fun v => ! outcome v 2
          (retry_failed.isEmpty, firstAtts ++ retryAtts)
  else (true, [])

/-- Attempts to `mk v p m` keep the counts of the underlying VM list. -/
theorem mig_count_map (l : List String) (p : Nat) (m : MigMode) (v : String) :
    ((l.map fun x => MigAttempt.mk x p m).map MigAttempt.vm).count v =
      l.count v := by
  rw [List.map_map,
    show (MigAttempt.vm ∘ fun x => MigAttempt.mk x p m) = id from rfl,
    List.map_id]

/-- Pass-1 attempts never survive a pass-2 filter. -/
theorem mig_filter_pass1 (l : List String) (m : MigMode) :
    ((l.map fun v => MigAttempt.mk v 1 m).filter fun a => a.pass == 2) = [] := by
  induction l with
  | nil => rfl
  | cons x xs ih => simp [List.filter, ih]

/-- Pass-2 attempts all survive a pass-2 filter. -/
theorem mig_filter_pass2 (l : List String) (m : MigMode) :
    ((l.map fun v => MigAttempt.mk v 2 m).filter fun a => a.pass == 2) =
      l.map fun v => MigAttempt.mk v 2 m := by
  induction l with
  | nil => rfl
  | cons x xs ih => simp [List.filter, ih]

/-- Claim C2: once the guards pass (migration requested, virtctl allowed,
namespace usable) and the VM set is non-empty and duplicate-free,
`migrate_vms_during_test` issues at most 2 attempts per VM, tags every
attempt with the one configured mode (the retry pass reuses it), makes the
pass-2 attempts exactly the first-pass failures in order, and reports
overall success iff every VM succeeded on its first or second attempt. -/
theorem c2_migrate (workloads : List String) (interval : Nat)
    (uv : Option Bool) (ns : Option String) (pattern : String)
    (vm_hosts : List String) (is_vm : String → Bool)
    (outcome : String → Nat → Bool)
    (hw : pattern ∈ workloads) (huv : ¬ uv = some false)
    (hns : nsBad ns = false)
    (hne : vm_hosts.filter is_vm ≠ [])
    (hnd : (vm_hosts.filter is_vm).Nodup) :
    (∀ v : String,
      (((migrate_vms_during_test workloads interval uv ns pattern vm_hosts
        is_vm outcome).2.map MigAttempt.vm).count v) ≤ 2) ∧
    (∀ a ∈ (migrate_vms_during_test workloads interval uv ns pattern vm_hosts
        is_vm outcome).2,
      a.mode = if 0 < interval then MigMode.sequential else MigMode.parallel) ∧
    (((migrate_vms_during_test workloads interval uv ns pattern vm_hosts
        is_vm outcome).2.filter fun a => a.pass == 2).map MigAttempt.vm =
      (vm_hosts.filter is_vm).filter fun v => ! outcome v 1) ∧
    ((migrate_vms_during_test workloads interval uv ns pattern vm_hosts
        is_vm outcome).1 = true ↔
      ∀ v ∈ vm_hosts.filter is_vm,
        outcome v 1 = true ∨ outcome v 2 = true) := by
  have hem : (vm_hosts.filter is_vm).isEmpty = false := by
    simpa [List.isEmpty_iff] using hne
  set vms := vm_hosts.filter is_vm with hvms
  set mode := if 0 < interval then MigMode.sequential else MigMode.parallel
    with hmode
  simp only [migrate_vms_during_test, if_pos hw, if_neg huv, hns,
    Bool.false_eq_true, if_false, ← hvms, hem, ← hmode]
  by_cases hfe : (vms.filter fun v => ! outcome v 1).isEmpty
  · have hfailed : vms.filter (fun v => ! outcome v 1) = [] :=
      List.isEmpty_iff.mp hfe
    have hall : ∀ v ∈ vms, outcome v 1 = true := by
      intro v hv
      have := List.filter_eq_nil_iff.mp hfailed v hv
      simpa using this
    simp only [hfe, if_true]
    refine ⟨?_, ?_, ?_, ?_⟩
    · intro v
      rw [mig_count_map]
      exact le_trans ((List.nodup_iff_count_le_one.mp hnd) v) (by omega)
    · intro a ha
      rcases List.mem_map.mp ha with ⟨x, _, rfl⟩
      rfl
    · rw [mig_filter_pass1, hfailed]
      rfl
    · simp only [true_iff]
      intro v hv
      exact Or.inl (hall v hv)
  · rw [Bool.not_eq_true] at hfe
    simp only [hfe, Bool.false_eq_true, if_false]
    have hsub : (vms.filter fun v => ! outcome v 1).Nodup :=
      List.Nodup.filter _ hnd
    refine ⟨?_, ?_, ?_, ?_⟩
    · intro v
      rw [List.map_append, List.count_append, mig_count_map, mig_count_map]
      have c1 := (List.nodup_iff_count_le_one.mp hnd) v
      have c2 := (List.nodup_iff_count_le_one.mp hsub) v
      omega
    · intro a ha
      rcases List.mem_append.mp ha with ha | ha <;>
        rcases List.mem_map.mp ha with ⟨x, _, rfl⟩ <;> rfl
    · rw [List.filter_append, mig_filter_pass1, mig_filter_pass2,
        List.nil_append, List.map_map,
        show (MigAttempt.vm ∘ fun v => MigAttempt.mk v 2 mode) = id from rfl,
        List.map_id]
    · rw [List.isEmpty_iff, List.filter_eq_nil_iff]
      constructor
      · intro hret v hv
        by_cases h1 : outcome v 1 = true
        · exact Or.inl h1
        · have hvf : v ∈ vms.filter fun v => ! outcome v 1 :=
            List.mem_filter.mpr ⟨hv, by simp [h1]⟩
          have := hret v hvf
          simp at this
          exact Or.inr this
      · intro hall v hvf
        have hv := List.mem_filter.mp hvf
        rcases hall v hv.1 with h1 | h2
        · exact absurd h1 (by simpa using hv.2)
        · simp [h2]

/-- Witness for C2: two VMs, one clean first pass and one retry success:
two attempts at most per VM and overall success. -/
theorem c2_migrate_witness :
    ((migrate_vms_during_test ["randwrite"] 5 none (some "ns") "randwrite"
      ["vm1", "vm2"] (fun _ => true)
      (fun v p => v == "vm1" || p == 2)).1 = true) ∧
    (((migrate_vms_during_test ["randwrite"] 5 none (some "ns") "randwrite"
      ["vm1", "vm2"] (fun _ => true)
      (fun v p => v == "vm1" || p == 2)).2.map MigAttempt.vm).count "vm2" ≤ 2) := by
  have h := c2_migrate ["randwrite"] 5 none (some "ns") "randwrite"
    ["vm1", "vm2"] (fun _ => true) (fun v p => v == "vm1" || p == 2)
    (by decide) (by decide) (by decide) (by decide) (by decide)
  exact ⟨h.2.2.2.mpr (by decide), h.1 "vm2"⟩

/-- Claim C10: if migration is requested for the pattern but SSH-only
mode is forced, or the namespace is unset/empty/"N/A", or no host
classifies as a VM, then `migrate_vms_during_test` issues no attempt and
reports overall success. -/
theorem c10_migrate_noop (workloads : List String) (interval : Nat)
    (uv : Option Bool) (ns : Option String) (pattern : String)
    (vm_hosts : List String) (is_vm : String → Bool)
    (outcome : String → Nat → Bool)
    (hw : pattern ∈ workloads)
    (h : uv = some false ∨ nsBad ns = true ∨ vm_hosts.filter is_vm = []) :
    migrate_vms_during_test workloads interval uv ns pattern vm_hosts is_vm
      outcome = (true, []) := by
  simp only [migrate_vms_during_test, if_pos hw]
  by_cases huv : uv = some false
  · simp [huv]
  · rcases h with h | h | h
    · exact absurd h huv
    · simp [huv, h]
    · by_cases hns : nsBad ns
      · simp [huv, hns]
      · simp [huv, hns, h]

/-- Witness for C10: forced SSH-only mode turns a requested migration into
a successful no-op. -/
theorem c10_migrate_noop_witness :
    migrate_vms_during_test ["randwrite"] 0 (some false) (some "ns")
      "randwrite" ["vm1"] (fun _ => true) (fun _ _ => false) = (true, []) :=
  c10_migrate_noop ["randwrite"] 0 (some false) (some "ns") "randwrite"
    ["vm1"] (fun _ => true) (fun _ _ => false) (by decide) (Or.inl rfl)

/-- Total wall-clock time of one fleet-wide round of per-host calls
(probes or file checks), as the sum of the per-host durations. -/
def fleet_time (hosts : List String) (f : String → Nat) : Nat :=
  (hosts.map f).sum

/-- Number of hosts satisfying a predicate (running count, file count). -/
def host_count (hosts : List String) (p : String → Bool) : Nat :=
  (hosts.filter p).length

/-- How the completion-poll loop of one iteration ends. -/
inductive PollOutcome where
  | allDone
  | filesOk
  | filesMissing (exist : Nat) (total : Nat)
  | fuelOut
deriving DecidableEq

/-- Observable result of the poll loop: the wall-clock instant (seconds
since the loop's `start_time`) at which it returns, how it ended, and the
warning messages it logged on the way out. -/
structure PollResult where
  finish : Nat
  outcome : PollOutcome
  warns : List String

/-- `f"FIO test exceeded expected time ({test_runtime_int}s)"`. -/
def msg_exceeded (runtime : Nat) : String :=
  "FIO test exceeded expected time (" ++ toString runtime ++ "s)"

/-- `f"{running_count} hosts still have FIO processes running"`. -/
def msg_still_running (rc : Nat) : String :=
  toString rc ++ " hosts still have FIO processes running"

/-- `f"Only {result_files_exist}/{len(config.vm_hosts)} result files exist"`. -/
def msg_only (ex tot : Nat) : String :=
  "Only " ++ toString ex ++ "/" ++ toString tot ++ " result files exist"

/-- The `while True` completion-poll loop of `run_fio_tests`
(fio-tests.py lines 1163-1211), with wall-clock time made explicit.
`running i h` is the (fail-safe) answer of `check_task_running` for host
`h` on loop iteration `i` and `ptime i h` its duration; `fexists h` and
`ftime h` describe the fallback result-file check. One iteration probes
every host (advancing the clock), exits if none is running, otherwise
compares the elapsed time against `runtime + 60`: past the deadline it
runs the file check on every host and exits (completed when all files
exist, a count-only warning otherwise); under the deadline it sleeps the
10-second check interval and loops. `fuel` bounds the number of sleeps;
`fuelOut` marks exhaustion and is shown unreachable for the fuel used by
`run_poll`. -/
def run_fio_tests_poll (hosts : List String) (runtime : Nat)
    (running : Nat → String → Bool) (ptime : Nat → String → Nat)
    (fexists : String → Bool) (ftime : String → Nat) :
    Nat → Nat → Nat → PollResult
  | fuel, iter, t =>
    let t1 := t + fleet_time hosts (ptime iter)
    let rc := host_count hosts (running iter)
    if rc = 0 then ⟨t1, PollOutcome.allDone, []⟩
    else if runtime + 60 < t1 then
      let t2 := t1 + fleet_time hosts ftime
      let ex := host_count hosts fexists
      if ex = hosts.length then
        ⟨t2, PollOutcome.filesOk, [msg_exceeded runtime, msg_still_running rc]⟩
      else
        ⟨t2, PollOutcome.filesMissing ex hosts.length,
          [msg_exceeded runtime, msg_still_running rc,
            msg_only ex hosts.length]⟩
    else
      match fuel with
      | 0 => ⟨t1, PollOutcome.fuelOut, []⟩
      | fuel' + 1 =>
        run_fio_tests_poll hosts runtime running ptime fexists ftime
          fuel' (iter + 1) (t1 + 10)

/-- One-step unfolding of the poll loop, valid for every fuel value. -/
theorem run_fio_tests_poll_eq (hosts : List String) (runtime : Nat)
    (running : Nat → String → Bool) (ptime : Nat → String → Nat)
    (fexists : String → Bool) (ftime : String → Nat)
    (fuel iter t : Nat) :
    run_fio_tests_poll hosts runtime running ptime fexists ftime fuel iter t =
      (if host_count hosts (running iter) = 0 then
        ⟨t + fleet_time hosts (ptime iter), PollOutcome.allDone, []⟩
       else if runtime + 60 < t + fleet_time hosts (ptime iter) then
         if host_count hosts fexists = hosts.length then
           ⟨t + fleet_time hosts (ptime iter) + fleet_time hosts ftime,
             PollOutcome.filesOk,
             [msg_exceeded runtime,
               msg_still_running (host_count hosts (running iter))]⟩
         else
           ⟨t + fleet_time hosts (ptime iter) + fleet_time hosts ftime,
             PollOutcome.filesMissing (host_count hosts fexists) hosts.length,
             [msg_exceeded runtime,
               msg_still_running (host_count hosts (running iter)),
               msg_only (host_count hosts fexists) hosts.length]⟩
       else
         match fuel with
         | 0 => ⟨t + fleet_time hosts (ptime iter), PollOutcome.fuelOut, []⟩
         | fuel' + 1 =>
           run_fio_tests_poll hosts runtime running ptime fexists ftime
             fuel' (iter + 1) (t + fleet_time hosts (ptime iter) + 10)) := by
  cases fuel <;> rfl

/-- The poll loop as entered by `run_fio_tests`: clock and iteration start
at zero; the fuel `runtime + 61` is more than the sleeps the deadline
`runtime + 60` permits, so it is never exhausted. -/
def run_poll (hosts : List String) (runtime : Nat)
    (running : Nat → String → Bool) (ptime : Nat → String → Nat)
    (fexists : String → Bool) (ftime : String → Nat) : PollResult :=
  run_fio_tests_poll hosts runtime running ptime fexists ftime
    (runtime + 61) 0 0

/-- A fleet whose single host keeps reporting running. -/
def pollBusy : Nat → String → Bool := fun _ _ => true

/-- Probes that time out: each liveness probe consumes its full 30 s
`check_task_running` timeout. -/
def pollProbe30 : Nat → String → Nat := fun _ _ => 30

/-- No result file ever appears. -/
def pollNoFile : String → Bool := fun _ => false

/-- Fallback file checks that also consume their full 30 s timeout. -/
def pollFile30 : String → Nat := fun _ => 30

/-- Claim C3 (counterexample): with `expected_duration = 0` (deadline 60 s,
poll interval 10 s) and a single host whose probes and file check each
consume their full 30 s timeout, the loop returns at t = 100 s, past the
claimed bound `expected_duration + 60 + 10 = 70` — the bound ignores the
probe round and fallback round straddling the deadline. -/
theorem c3_counterexample :
    ¬ ((run_poll ["alphahost"] 0 pollBusy pollProbe30 pollNoFile
      pollFile30).finish ≤ 0 + 60 + 10) := by
  decide

/-- Claim C4 (counterexample): in the same timed-out iteration the fallback
check finds 0 of 1 result files, and the warnings logged are the
exceeded-time message and two counts — none of them names the still-busy
host "alphahost", so no warning naming the hosts presumed still busy is
surfaced. -/
theorem c4_counterexample :
    (run_poll ["alphahost"] 0 pollBusy pollProbe30 pollNoFile
        pollFile30).outcome = PollOutcome.filesMissing 0 1 ∧
      (run_poll ["alphahost"] 0 pollBusy pollProbe30 pollNoFile
        pollFile30).warns =
        ["FIO test exceeded expected time (0s)",
          "1 hosts still have FIO processes running",
          "Only 0/1 result files exist"] ∧
      ¬ ("alphahost".toList <:+:
        "FIO test exceeded expected time (0s)".toList) ∧
      ¬ ("alphahost".toList <:+:
        "1 hosts still have FIO processes running".toList) ∧
      ¬ ("alphahost".toList <:+: "Only 0/1 result files exist".toList) := by
  refine ⟨by decide, by decide, by decide, by decide, by decide⟩

/-- A fleet round is bounded by per-host duration bounds. -/
theorem fleet_time_le (hosts : List String) (f : String → Nat) (b : Nat)
    (h : ∀ x ∈ hosts, f x ≤ b) : fleet_time hosts f ≤ hosts.length * b := by
  induction hosts with
  | nil => simp [fleet_time]
  | cons x xs ih =>
    simp only [fleet_time, List.map_cons, List.sum_cons, List.length_cons]
    have hx := h x (by simp)
    have hxs := ih fun y hy => h y (by simp [hy])
    calc f x + (xs.map f).sum ≤ b + xs.length * b := Nat.add_le_add hx hxs
    _ = (xs.length + 1) * b := by ring

/-- Fuel-indexed bound for the poll loop: as long as the clock is within
one sleep of the deadline and the fuel covers the remaining sleeps, the
loop never exhausts its fuel and returns within the deadline plus one
sleep plus one probe round plus one file-check round. -/
theorem run_fio_tests_poll_bound (hosts : List String) (runtime : Nat)
    (running : Nat → String → Bool) (ptime : Nat → String → Nat)
    (fexists : String → Bool) (ftime : String → Nat) (pb fb : Nat)
    (hp : ∀ i h, h ∈ hosts → ptime i h ≤ pb)
    (hf : ∀ h ∈ hosts, ftime h ≤ fb) :
    ∀ fuel iter t, t ≤ runtime + 70 → runtime + 60 < 10 * fuel + t →
      (run_fio_tests_poll hosts runtime running ptime fexists ftime
        fuel iter t).outcome ≠ PollOutcome.fuelOut ∧
      (run_fio_tests_poll hosts runtime running ptime fexists ftime
        fuel iter t).finish ≤
          runtime + 70 + hosts.length * pb + hosts.length * fb := by
  intro fuel
  induction fuel with
  | zero =>
    intro iter t ht hclock
    rw [run_fio_tests_poll_eq]
    have hpt : fleet_time hosts (ptime iter) ≤ hosts.length * pb :=
      fleet_time_le hosts (ptime iter) pb fun x hx => hp iter x hx
    have hft : fleet_time hosts ftime ≤ hosts.length * fb :=
      fleet_time_le hosts ftime fb hf
    by_cases hrc : host_count hosts (running iter) = 0
    · simp only [hrc, if_true]
      exact ⟨by simp, by omega⟩
    · simp only [hrc, if_false]
      by_cases hd : runtime + 60 < t + fleet_time hosts (ptime iter)
      · simp only [hd, if_true]
        by_cases hex : host_count hosts fexists = hosts.length
        · simp only [hex, if_true]
          exact ⟨by simp, by omega⟩
        · simp only [hex, if_false]
          exact ⟨by simp, by omega⟩
      · omega
  | succ f ih =>
    intro iter t ht hclock
    rw [run_fio_tests_poll_eq]
    have hpt : fleet_time hosts (ptime iter) ≤ hosts.length * pb :=
      fleet_time_le hosts (ptime iter) pb fun x hx => hp iter x hx
    have hft : fleet_time hosts ftime ≤ hosts.length * fb :=
      fleet_time_le hosts ftime fb hf
    by_cases hrc : host_count hosts (running iter) = 0
    · simp only [hrc, if_true]
      exact ⟨by simp, by omega⟩
    · simp only [hrc, if_false]
      by_cases hd : runtime + 60 < t + fleet_time hosts (ptime iter)
      · simp only [hd, if_true]
        by_cases hex : host_count hosts fexists = hosts.length
        · simp only [hex, if_true]
          exact ⟨by simp, by omega⟩
        · simp only [hex, if_false]
          exact ⟨by simp, by omega⟩
      · simp only [hd, if_false]
        exact ih (iter + 1) (t + fleet_time hosts (ptime iter) + 10)
          (by omega) (by omega)

/-- Claim C3 (amended): the poll loop always terminates (its fuel bound is
never the exit reason), and it returns within `expected_duration + 60`
(the grace buffer) `+ 10` (one poll interval) plus one fleet probe round
and one fleet file-check round, where each per-host probe or file check is
itself time-bounded (by the 30 s remote timeouts); the tight bound without
those two rounds holds only when every probe returns instantly. -/
theorem c3_poll_bound (hosts : List String) (runtime : Nat)
    (running : Nat → String → Bool) (ptime : Nat → String → Nat)
    (fexists : String → Bool) (ftime : String → Nat) (pb fb : Nat)
    (hp : ∀ i h, h ∈ hosts → ptime i h ≤ pb)
    (hf : ∀ h ∈ hosts, ftime h ≤ fb) :
    (run_poll hosts runtime running ptime fexists ftime).outcome ≠
        PollOutcome.fuelOut ∧
      (run_poll hosts runtime running ptime fexists ftime).finish ≤
        runtime + 60 + 10 + hosts.length * pb + hosts.length * fb :=
  run_fio_tests_poll_bound hosts runtime running ptime fexists ftime pb fb
    hp hf (runtime + 61) 0 0 (by omega) (by omega)

/-- Witness for the amended C3: the counterexample fleet (one host, every
probe and file check taking its full 30 s) stays within the amended bound
`0 + 60 + 10 + 30 + 30 = 130`. -/
theorem c3_poll_bound_witness :
    (run_poll ["alphahost"] 0 pollBusy pollProbe30 pollNoFile
        pollFile30).outcome ≠ PollOutcome.fuelOut ∧
      (run_poll ["alphahost"] 0 pollBusy pollProbe30 pollNoFile
        pollFile30).finish ≤ 0 + 60 + 10 + 1 * 30 + 1 * 30 :=
  c3_poll_bound ["alphahost"] 0 pollBusy pollProbe30 pollNoFile pollFile30
    30 30 (fun _ _ _ => le_refl 30) (fun _ _ => le_refl 30)

/-- Fuel-indexed form of the fallback-check facts for the poll loop. -/
theorem run_fio_tests_poll_fallback (hosts : List String) (runtime : Nat)
    (running : Nat → String → Bool) (ptime : Nat → String → Nat)
    (fexists : String → Bool) (ftime : String → Nat) :
    ∀ fuel iter t,
      ((run_fio_tests_poll hosts runtime running ptime fexists ftime
          fuel iter t).outcome = PollOutcome.filesOk →
        (∀ h ∈ hosts, fexists h = true) ∧
          msg_exceeded runtime ∈ (run_fio_tests_poll hosts runtime running
            ptime fexists ftime fuel iter t).warns) ∧
      (∀ ex tot,
        (run_fio_tests_poll hosts runtime running ptime fexists ftime
          fuel iter t).outcome = PollOutcome.filesMissing ex tot →
        ex = host_count hosts fexists ∧ tot = hosts.length ∧ ex ≠ tot ∧
          msg_only ex tot ∈ (run_fio_tests_poll hosts runtime running
            ptime fexists ftime fuel iter t).warns) := by
  intro fuel
  induction fuel with
  | zero =>
    intro iter t
    rw [run_fio_tests_poll_eq]
    by_cases hrc : host_count hosts (running iter) = 0
    · simp [hrc]
    · simp only [hrc, if_false]
      by_cases hd : runtime + 60 < t + fleet_time hosts (ptime iter)
      · simp only [hd, if_true]
        by_cases hex : host_count hosts fexists = hosts.length
        · simp only [hex, if_true]
          constructor
          · intro _
            refine ⟨?_, by simp⟩
            intro h hh
            have hlen : (hosts.filter fexists).length = hosts.length := hex
            have := List.filter_length_eq_length.mp hlen
            exact this h hh
          · intro ex tot hcon
            simp at hcon
        · simp only [hex, if_false]
          constructor
          · intro hcon; simp at hcon
          · intro ex tot hcon
            simp only [PollOutcome.filesMissing.injEq] at hcon
            obtain ⟨he, hto⟩ := hcon
            subst he; subst hto
            exact ⟨rfl, rfl, hex, by simp⟩
      · simp [hd]
  | succ f ih =>
    intro iter t
    rw [run_fio_tests_poll_eq]
    by_cases hrc : host_count hosts (running iter) = 0
    · simp [hrc]
    · simp only [hrc, if_false]
      by_cases hd : runtime + 60 < t + fleet_time hosts (ptime iter)
      · simp only [hd, if_true]
        by_cases hex : host_count hosts fexists = hosts.length
        · simp only [hex, if_true]
          constructor
          · intro _
            refine ⟨?_, by simp⟩
            intro h hh
            have hlen : (hosts.filter fexists).length = hosts.length := hex
            have := List.filter_length_eq_length.mp hlen
            exact this h hh
          · intro ex tot hcon
            simp at hcon
        · simp only [hex, if_false]
          constructor
          · intro hcon; simp at hcon
          · intro ex tot hcon
            simp only [PollOutcome.filesMissing.injEq] at hcon
            obtain ⟨he, hto⟩ := hcon
            subst he; subst hto
            exact ⟨rfl, rfl, hex, by simp⟩
      · simp only [hd, if_false]
        exact ih (iter + 1) (t + fleet_time hosts (ptime iter) + 10)

/-- Claim C4 (amended): past the deadline the fallback file check runs on
every host and polling stops: the loop ends `filesOk` only when the result
file exists on every host (completed despite the timeout, the exceeded-time
warning logged), and otherwise ends `filesMissing ex tot` where `ex` is the
exact count of hosts with the file and `tot` the fleet size, with a
non-fatal warning that reports only this count — the loop returns normally
and the run proceeds; no warning lists the names of the busy hosts. -/
theorem c4_fallback (hosts : List String) (runtime : Nat)
    (running : Nat → String → Bool) (ptime : Nat → String → Nat)
    (fexists : String → Bool) (ftime : String → Nat) :
    ((run_poll hosts runtime running ptime fexists ftime).outcome =
        PollOutcome.filesOk →
      (∀ h ∈ hosts, fexists h = true) ∧
        msg_exceeded runtime ∈
          (run_poll hosts runtime running ptime fexists ftime).warns) ∧
    (∀ ex tot,
      (run_poll hosts runtime running ptime fexists ftime).outcome =
        PollOutcome.filesMissing ex tot →
      ex = host_count hosts fexists ∧ tot = hosts.length ∧ ex ≠ tot ∧
        msg_only ex tot ∈
          (run_poll hosts runtime running ptime fexists ftime).warns) :=
  run_fio_tests_poll_fallback hosts runtime running ptime fexists ftime
    (runtime + 61) 0 0

/-- Witness for the amended C4 on the concrete timed-out fleet: the
count-only warning "Only 0/1 result files exist" is indeed among the
warnings of the missing-files exit. -/
theorem c4_fallback_witness :
    msg_only 0 1 ∈
      (run_poll ["alphahost"] 0 pollBusy pollProbe30 pollNoFile
        pollFile30).warns :=
  ((c4_fallback ["alphahost"] 0 pollBusy pollProbe30 pollNoFile
    pollFile30).2 0 1 (by decide)).2.2.2

end FioTests
